import Mathlib

/-!
Shallow embedding of `src/database.ts` from the react_wasm_sqlite_step2
repository: a thin wrapper module, living in a web-worker context, around
the sqlite-wasm engine.  The module keeps two pieces of process-wide
mutable state:

* `db` — the single lazily-created database connection (`Database | null`);
* `objectStore` — a registry mapping opaque handles to `PreparedStatement`
  objects that cannot be marshalled to the UI thread.

The embedding models the worker state explicitly and every exported
function of the module as a state transformer returning `Except Err r`
together with the successor state.  Prepared statements are JS heap
objects referenced from the registry; we model the heap as a list of
statement records (index = object reference) so that in-place mutation of
a statement (as performed by `stmt.bind(...)`) is distinguished from
mutation of the registry mapping itself, exactly as in JavaScript.

Error mapping (the source throws untyped errors; the spec names them):
* every operation other than connect/close begins with
  `if (!db) throw new Error()` — modelled as `Err.notConnected`;
* a registry lookup `objectStore[handle]` with an absent key yields
  `undefined`, and the subsequent method call on it throws — modelled as
  `Err.unknownHandle`;
* `connectDatabase` rethrows an `Error` from module initialisation and
  converts any non-`Error` thrown value into `new Error('unknown error')`
  — modelled as `Err.jsError name msg`.

The sqlite engine itself (statement compilation, SQL execution, result
rows) is an external collaborator; calls into it are recorded as data
(which underlying call was made, with which arguments) rather than
interpreted.  Statement pointers (`stmt.pointer`, used as handles by the
current implementation) are native addresses of simultaneously-live
allocations; the model draws them from a monotone counter, which is
faithful for distinctness of live statements.
-/

namespace DatabaseTs

/-- SQL values usable as bind parameters (the app binds integers and
strings). -/
inductive SqlValue where
  | int (i : Int)
  | text (s : String)
  | null
deriving DecidableEq

/-- BindingSpec: the array of values passed to `PreparedStatement.bind`. -/
abbrev BindingSpec := List SqlValue

/-- Options object passed through to `db.exec(sql, opts)`; opaque plain
data, modelled as a key-value list. -/
abbrev ExecOpts := List (String × String)

/-- Structured request object accepted by `exec` (fields used by the app:
sql, bind, rowMode, returnValue). -/
structure ExecRequest where
  sql : String
  bind : Option BindingSpec := none
  rowMode : Option String := none
  returnValue : Option String := none
deriving DecidableEq

/-- First argument of the `exec` wrapper: a bare statement string or a
structured request object (the code discriminates with `typeof sql`). -/
inductive SqlArg where
  | str (s : String)
  | obj (r : ExecRequest)
deriving DecidableEq

/-- Record of which underlying `db.exec` call the wrapper made: the
two-argument form `db.exec(sql, opts)` or the one-argument form
`db.exec(request)`. -/
inductive DbExecCall where
  | twoArg (sql : String) (opts : ExecOpts)
  | oneArg (req : ExecRequest)
deriving DecidableEq

/-- Errors surfaced by the wrapper, named per the spec taxonomy (the
source throws untyped `Error` objects at the corresponding places). -/
inductive Err where
  | notConnected
  | unknownHandle
  | jsError (name msg : String)
deriving DecidableEq

/-- The database connection object created by `connectDB`/`openDB`:
`new sqlite3.oo1.OpfsDb('/mydb.sqlite3','ct')` when OPFS is available,
else `new sqlite3.oo1.DB('/mydb.sqlite3','ct')`.  `id` models JS object
identity. -/
structure Conn where
  id : Nat
  persistent : Bool
  filename : String
deriving DecidableEq

/-- A `PreparedStatement` heap object: the compiled SQL text, the values
currently applied by `bind`, how many `step`s ran, and whether the
statement has been finalized. -/
structure Stmt where
  sql : String
  bound : Option BindingSpec := none
  steps : Nat := 0
  finalized : Bool := false
deriving DecidableEq

/-- The worker module's process-wide state: the `db` reference, the
statement heap (JS objects, index = reference), the `objectStore`
registry mapping handle to heap reference, and allocator counters.
`released` records connections on which `close()` was called. -/
structure WorkerState where
  db : Option Conn := none
  heap : List Stmt := []
  objectStore : List (Nat × Nat) := []
  nextConnId : Nat := 0
  nextPtr : Nat := 0
  released : List Nat := []
deriving DecidableEq

/-- The module state at load time: `db = null`, empty registry. -/
def initState : WorkerState := {}

/-- The connection produced by the first successful connect from the
initial state (OPFS available). -/
def conn0 : Conn := { id := 0, persistent := true, filename := "/mydb.sqlite3" }

/-- The worker state right after the first successful connect from the
initial state: used as a concrete evaluation point. -/
def state1 : WorkerState := { db := some conn0, nextConnId := 1 }

/-- Registry lookup `objectStore[handle]`, returning the heap reference
of the stored statement object if the key is present. -/
def lookupStore (store : List (Nat × Nat)) (h : Nat) : Option Nat :=
  (store.find? (fun e => e.1 = h)).map (fun e => e.2)

/-- Dereference a handle to the statement object it maps to. -/
def getStmt (s : WorkerState) (h : Nat) : Option Stmt :=
  (lookupStore s.objectStore h).bind (fun ref => s.heap[ref]?)

/-- In-place update of the heap object at a reference (JS mutation of a
statement object; the registry mapping is untouched). -/
def modifyNth (f : Stmt → Stmt) : Nat → List Stmt → List Stmt
  | _, [] => []
  | 0, x :: xs => f x :: xs
  | n + 1, x :: xs => x :: modifyNth f n xs

/-- Outcome of awaiting `sqlite3InitModule(...)` and constructing the DB:
success (with OPFS availability), a thrown `Error` instance, or a thrown
non-`Error` value. -/
inductive InitResult where
  | success (opfs : Bool)
  | thrownError (name msg : String)
  | thrownOther
deriving DecidableEq

/-- The `connectDB`/`openDB` helper: picks OpfsDb when OPFS is available,
else a transient DB, stores it in `db` and returns it. -/
def connectDB (opfs : Bool) (s : WorkerState) : Conn × WorkerState :=
  let c : Conn := { id := s.nextConnId, persistent := opfs, filename := "/mydb.sqlite3" }
  (c, { s with db := some c, nextConnId := s.nextConnId + 1 })

/-- The exported `connectDatabase` (named `connectDB` in the second
variant): returns the existing connection if `db` is set; otherwise runs
module initialisation, rethrowing an `Error`, turning a non-`Error`
thrown value into `new Error('unknown error')`, and on success connects
and stores the new connection. -/
def connectDatabase (env : InitResult) (s : WorkerState) :
    Except Err Conn × WorkerState :=
  match s.db with
  | some c => (Except.ok c, s)
  | none =>
    match env with
    | InitResult.success opfs =>
      let (c, s1) := connectDB opfs s
      (Except.ok c, s1)
    | InitResult.thrownError n m => (Except.error (Err.jsError n m), s)
    | InitResult.thrownOther =>
      (Except.error (Err.jsError "Error" "unknown error"), s)

/-- The exported `closeDB`: `db?.close(); db = null;`.  Releases the open
connection if any (recorded in `released`) and resets the reference. -/
def closeDB (s : WorkerState) : WorkerState :=
  match s.db with
  | none => s
  | some c => { s with db := none, released := c.id :: s.released }

/-- The exported `exec` wrapper: throws when `db` is null, then
dispatches on `typeof sql`: a string goes to the two-argument
`db.exec(sql, opts)`, anything else to the one-argument `db.exec(sql)`.
The result records the underlying call made. -/
def exec (sql : SqlArg) (opts : ExecOpts) (s : WorkerState) :
    Except Err DbExecCall × WorkerState :=
  match s.db with
  | none => (Except.error Err.notConnected, s)
  | some _ =>
    match sql with
    | SqlArg.str q => (Except.ok (DbExecCall.twoArg q opts), s)
    | SqlArg.obj r => (Except.ok (DbExecCall.oneArg r), s)

/-- The exported `selectValue` wrapper: throws when `db` is null, else
delegates to `db.selectValue(sql, bind, asType)`; the result records the
delegated arguments (the scalar itself is produced by the engine). -/
def selectValue (sql : String) (bind : Option BindingSpec) (asType : Option String)
    (s : WorkerState) : Except Err (String × Option BindingSpec × Option String) × WorkerState :=
  match s.db with
  | none => (Except.error Err.notConnected, s)
  | some _ => (Except.ok (sql, bind, asType), s)

/-- The exported `prepare` wrapper: throws when `db` is null, compiles
the statement (`db.prepare(sql)`, allocating a fresh statement object),
uses `stmt.pointer` as the handle, stores `objectStore[handle] = stmt`
and returns the handle. -/
def prepare (sql : String) (s : WorkerState) : Except Err Nat × WorkerState :=
  match s.db with
  | none => (Except.error Err.notConnected, s)
  | some _ =>
    let stmt : Stmt := { sql := sql }
    let handle := s.nextPtr
    (Except.ok handle,
      { s with heap := s.heap ++ [stmt],
               objectStore := (handle, s.heap.length) :: s.objectStore,
               nextPtr := s.nextPtr + 1 })

/-- The exported `binding` wrapper (`bind` in the spec): throws when `db`
is null, looks up `objectStore[handle]`, applies `stmt.bind(binding)` to
the stored object and returns the same handle.  An absent key makes the
method call on `undefined` throw (`Err.unknownHandle`). -/
def binding (h : Nat) (b : BindingSpec) (s : WorkerState) :
    Except Err Nat × WorkerState :=
  match s.db with
  | none => (Except.error Err.notConnected, s)
  | some _ =>
    match lookupStore s.objectStore h with
    | none => (Except.error Err.unknownHandle, s)
    | some ref =>
      (Except.ok h,
        { s with heap := modifyNth (fun st => { st with bound := some b }) ref s.heap })

/-- The exported `stepReset` wrapper (`stepAndReset` in the spec): throws
when `db` is null, looks up the statement, runs `stmt.stepReset()` (one
step, then reset for reuse) and returns the handle. -/
def stepReset (h : Nat) (s : WorkerState) : Except Err Nat × WorkerState :=
  match s.db with
  | none => (Except.error Err.notConnected, s)
  | some _ =>
    match lookupStore s.objectStore h with
    | none => (Except.error Err.unknownHandle, s)
    | some ref =>
      (Except.ok h,
        { s with heap := modifyNth (fun st => { st with steps := st.steps + 1 }) ref s.heap })

/-- The exported `stepFinalize` wrapper (`stepAndFinalize` in the spec):
throws when `db` is null, looks up the statement, runs
`stmt.stepFinalize()` (one step, then finalize) and returns its boolean
(the step outcome, owned by the engine and not interpreted here).  The
registry entry is NOT removed. -/
def stepFinalize (h : Nat) (s : WorkerState) : Except Err Bool × WorkerState :=
  match s.db with
  | none => (Except.error Err.notConnected, s)
  | some _ =>
    match lookupStore s.objectStore h with
    | none => (Except.error Err.unknownHandle, s)
    | some ref =>
      (Except.ok false,
        { s with heap :=
            modifyNth (fun st => { st with steps := st.steps + 1, finalized := true }) ref s.heap })

/-- The exported `finalize` wrapper: throws when `db` is null, looks up
the statement and runs `stmt.finalize()`, returning its result code
(owned by the engine; 0 here).  The registry entry is NOT removed. -/
def finalize (h : Nat) (s : WorkerState) : Except Err Nat × WorkerState :=
  match s.db with
  | none => (Except.error Err.notConnected, s)
  | some _ =>
    match lookupStore s.objectStore h with
    | none => (Except.error Err.unknownHandle, s)
    | some ref =>
      (Except.ok 0,
        { s with heap := modifyNth (fun st => { st with finalized := true }) ref s.heap })

/-- One remote call issued by the foreground against the worker module
(the API surface exported by database.ts). -/
inductive Op where
  | connectOp (env : InitResult)
  | closeOp
  | prepareOp (sql : String)
  | bindingOp (h : Nat) (b : BindingSpec)
  | stepResetOp (h : Nat)
  | stepFinalizeOp (h : Nat)
  | finalizeOp (h : Nat)
  | execOp (sql : SqlArg) (opts : ExecOpts)
  | selectValueOp (sql : String) (bind : Option BindingSpec) (asType : Option String)
deriving DecidableEq

/-- Run one operation, returning the successor state together with the
handles the operation returned to the foreground from `prepare` (the
only producer of handles). -/
def stepOp (s : WorkerState) : Op → WorkerState × List Nat
  | Op.connectOp env => ((connectDatabase env s).2, [])
  | Op.closeOp => (closeDB s, [])
  | Op.prepareOp sql =>
    match prepare sql s with
    | (Except.ok h, s1) => (s1, [h])
    | (Except.error _, s1) => (s1, [])
  | Op.bindingOp h b => ((binding h b s).2, [])
  | Op.stepResetOp h => ((stepReset h s).2, [])
  | Op.stepFinalizeOp h => ((stepFinalize h s).2, [])
  | Op.finalizeOp h => ((finalize h s).2, [])
  | Op.execOp sql opts => ((exec sql opts s).2, [])
  | Op.selectValueOp sql b t => ((selectValue sql b t s).2, [])

/-- Run a sequence of operations, collecting every handle that `prepare`
returned along the way. -/
def runCollect : WorkerState → List Op → WorkerState × List Nat
  | s, [] => (s, [])
  | s, op :: ops =>
    ((runCollect (stepOp s op).1 ops).1,
     (stepOp s op).2 ++ (runCollect (stepOp s op).1 ops).2)

theorem lookupStore_nil (h : Nat) : lookupStore [] h = none := rfl

theorem lookupStore_cons (k v : Nat) (rest : List (Nat × Nat)) (h : Nat) :
    lookupStore ((k, v) :: rest) h = if k = h then some v else lookupStore rest h := by
  by_cases hk : k = h
  · simp [lookupStore, List.find?_cons_of_pos, hk]
  · simp [lookupStore, List.find?_cons_of_neg, hk]

theorem binding_objectStore (h : Nat) (b : BindingSpec) (s : WorkerState) :
    (binding h b s).2.objectStore = s.objectStore := by
  unfold binding
  rcases s.db with _ | c
  · rfl
  · rcases lookupStore s.objectStore h with _ | ref <;> rfl

theorem stepReset_objectStore (h : Nat) (s : WorkerState) :
    (stepReset h s).2.objectStore = s.objectStore := by
  unfold stepReset
  rcases s.db with _ | c
  · rfl
  · rcases lookupStore s.objectStore h with _ | ref <;> rfl

theorem stepFinalize_objectStore (h : Nat) (s : WorkerState) :
    (stepFinalize h s).2.objectStore = s.objectStore := by
  unfold stepFinalize
  rcases s.db with _ | c
  · rfl
  · rcases lookupStore s.objectStore h with _ | ref <;> rfl

theorem finalize_objectStore (h : Nat) (s : WorkerState) :
    (finalize h s).2.objectStore = s.objectStore := by
  unfold finalize
  rcases s.db with _ | c
  · rfl
  · rcases lookupStore s.objectStore h with _ | ref <;> rfl

theorem exec_objectStore (sql : SqlArg) (opts : ExecOpts) (s : WorkerState) :
    (exec sql opts s).2.objectStore = s.objectStore := by
  unfold exec
  rcases s.db with _ | c
  · rfl
  · rcases sql with q | r <;> rfl

theorem selectValue_objectStore (sql : String) (b : Option BindingSpec)
    (t : Option String) (s : WorkerState) :
    (selectValue sql b t s).2.objectStore = s.objectStore := by
  unfold selectValue
  rcases s.db with _ | c <;> rfl

theorem closeDB_objectStore (s : WorkerState) :
    (closeDB s).objectStore = s.objectStore := by
  unfold closeDB
  rcases s.db with _ | c <;> rfl

theorem closeDB_heap (s : WorkerState) : (closeDB s).heap = s.heap := by
  unfold closeDB
  rcases s.db with _ | c <;> rfl

theorem connectDatabase_objectStore (env : InitResult) (s : WorkerState) :
    (connectDatabase env s).2.objectStore = s.objectStore := by
  unfold connectDatabase connectDB
  rcases s.db with _ | c
  · rcases env with b | ⟨n, m⟩ | _ <;> rfl
  · rfl

theorem prepare_of_not_connected (sql : String) (s : WorkerState) (hdb : s.db = none) :
    prepare sql s = (Except.error Err.notConnected, s) := by
  unfold prepare; rw [hdb]

theorem prepare_of_connected (sql : String) (s : WorkerState) (c : Conn)
    (hdb : s.db = some c) :
    prepare sql s = (Except.ok s.nextPtr,
      { s with heap := s.heap ++ [{ sql := sql }],
               objectStore := (s.nextPtr, s.heap.length) :: s.objectStore,
               nextPtr := s.nextPtr + 1 }) := by
  unfold prepare; rw [hdb]

theorem binding_of_absent (h : Nat) (b : BindingSpec) (s : WorkerState) (c : Conn)
    (hdb : s.db = some c) (hl : lookupStore s.objectStore h = none) :
    binding h b s = (Except.error Err.unknownHandle, s) := by
  unfold binding; rw [hdb, hl]

theorem binding_of_found (h : Nat) (b : BindingSpec) (s : WorkerState) (c : Conn) (ref : Nat)
    (hdb : s.db = some c) (hl : lookupStore s.objectStore h = some ref) :
    binding h b s = (Except.ok h,
      { s with heap := modifyNth (fun st => { st with bound := some b }) ref s.heap }) := by
  unfold binding; rw [hdb, hl]

theorem stepReset_of_absent (h : Nat) (s : WorkerState) (c : Conn)
    (hdb : s.db = some c) (hl : lookupStore s.objectStore h = none) :
    stepReset h s = (Except.error Err.unknownHandle, s) := by
  unfold stepReset; rw [hdb, hl]

theorem stepReset_of_found (h : Nat) (s : WorkerState) (c : Conn) (ref : Nat)
    (hdb : s.db = some c) (hl : lookupStore s.objectStore h = some ref) :
    stepReset h s = (Except.ok h,
      { s with heap := modifyNth (fun st => { st with steps := st.steps + 1 }) ref s.heap }) := by
  unfold stepReset; rw [hdb, hl]

theorem stepFinalize_of_absent (h : Nat) (s : WorkerState) (c : Conn)
    (hdb : s.db = some c) (hl : lookupStore s.objectStore h = none) :
    stepFinalize h s = (Except.error Err.unknownHandle, s) := by
  unfold stepFinalize; rw [hdb, hl]

theorem stepFinalize_of_found (h : Nat) (s : WorkerState) (c : Conn) (ref : Nat)
    (hdb : s.db = some c) (hl : lookupStore s.objectStore h = some ref) :
    stepFinalize h s = (Except.ok false,
      { s with heap :=
          modifyNth (fun st => { st with steps := st.steps + 1, finalized := true }) ref s.heap }) := by
  unfold stepFinalize; rw [hdb, hl]

theorem finalize_of_absent (h : Nat) (s : WorkerState) (c : Conn)
    (hdb : s.db = some c) (hl : lookupStore s.objectStore h = none) :
    finalize h s = (Except.error Err.unknownHandle, s) := by
  unfold finalize; rw [hdb, hl]

theorem finalize_of_found (h : Nat) (s : WorkerState) (c : Conn) (ref : Nat)
    (hdb : s.db = some c) (hl : lookupStore s.objectStore h = some ref) :
    finalize h s = (Except.ok 0,
      { s with heap := modifyNth (fun st => { st with finalized := true }) ref s.heap }) := by
  unfold finalize; rw [hdb, hl]

theorem modifyNth_getElem_ne (f : Stmt → Stmt) (l : List Stmt) :
    ∀ (n m : Nat), n ≠ m → (modifyNth f n l)[m]? = l[m]? := by
  induction l with
  | nil => intro n m _; cases n <;> rfl
  | cons x xs ih =>
    intro n m hnm
    cases n with
    | zero =>
      cases m with
      | zero => exact absurd rfl hnm
      | succ m => rfl
    | succ n =>
      cases m with
      | zero => simp only [modifyNth, List.getElem?_cons_zero]
      | succ m =>
        simp only [modifyNth]
        rw [List.getElem?_cons_succ, List.getElem?_cons_succ]
        exact ih n m (by omega)

theorem modifyNth_getElem_self (f : Stmt → Stmt) (l : List Stmt) :
    ∀ (n : Nat), (modifyNth f n l)[n]? = Option.map f l[n]? := by
  induction l with
  | nil => intro n; cases n <;> rfl
  | cons x xs ih =>
    intro n
    cases n with
    | zero => simp [modifyNth]
    | succ n =>
      simp only [modifyNth]
      rw [List.getElem?_cons_succ, List.getElem?_cons_succ]
      exact ih n

theorem stepOp_keys (op : Op) (s : WorkerState) (h : Nat)
    (hk : (lookupStore (stepOp s op).1.objectStore h).isSome = true) :
    (lookupStore s.objectStore h).isSome = true ∨ h ∈ (stepOp s op).2 := by
  cases op with
  | connectOp env =>
    rw [stepOp, connectDatabase_objectStore] at hk; exact Or.inl hk
  | closeOp =>
    rw [stepOp, closeDB_objectStore] at hk; exact Or.inl hk
  | prepareOp sql =>
    simp only [stepOp] at hk ⊢
    rcases hdb : s.db with _ | c
    · rw [prepare_of_not_connected sql s hdb] at hk ⊢
      exact Or.inl hk
    · rw [prepare_of_connected sql s c hdb] at hk ⊢
      simp only [] at hk ⊢
      rw [lookupStore_cons] at hk
      by_cases hh : s.nextPtr = h
      · right; simp [hh]
      · rw [if_neg hh] at hk; exact Or.inl hk
  | bindingOp h0 b =>
    rw [stepOp, binding_objectStore] at hk; exact Or.inl hk
  | stepResetOp h0 =>
    rw [stepOp, stepReset_objectStore] at hk; exact Or.inl hk
  | stepFinalizeOp h0 =>
    rw [stepOp, stepFinalize_objectStore] at hk; exact Or.inl hk
  | finalizeOp h0 =>
    rw [stepOp, finalize_objectStore] at hk; exact Or.inl hk
  | execOp sql opts =>
    rw [stepOp, exec_objectStore] at hk; exact Or.inl hk
  | selectValueOp sql b t =>
    rw [stepOp, selectValue_objectStore] at hk; exact Or.inl hk

theorem runCollect_keys (tr : List Op) : ∀ (s : WorkerState) (h : Nat),
    (lookupStore (runCollect s tr).1.objectStore h).isSome = true →
    (lookupStore s.objectStore h).isSome = true ∨ h ∈ (runCollect s tr).2 := by
  induction tr with
  | nil => intro s h hk; exact Or.inl hk
  | cons op ops ih =>
    intro s h hk
    simp only [runCollect] at hk ⊢
    rcases ih (stepOp s op).1 h hk with h1 | h2
    · rcases stepOp_keys op s h h1 with ha | hb
      · exact Or.inl ha
      · exact Or.inr (List.mem_append.mpr (Or.inl hb))
    · exact Or.inr (List.mem_append.mpr (Or.inr h2))

/-- Claim C2: for every handle value that was never returned by a prior
prepare call, every handle-based operation (binding, stepReset,
stepFinalize, finalize) invoked with that handle in a connected state
fails with UnknownHandleError: after any sequence of API calls starting
from the module's initial state, a handle not among those returned by
prepare is absent from the registry and each operation returns
Err.unknownHandle, leaving the state unchanged. -/
theorem C2_never_prepared_handle_ops_fail (tr : List Op) (h : Nat) (b : BindingSpec)
    (c : Conn)
    (hdb : (runCollect initState tr).1.db = some c)
    (hnp : h ∉ (runCollect initState tr).2) :
    binding h b (runCollect initState tr).1 =
      (Except.error Err.unknownHandle, (runCollect initState tr).1) ∧
    stepReset h (runCollect initState tr).1 =
      (Except.error Err.unknownHandle, (runCollect initState tr).1) ∧
    stepFinalize h (runCollect initState tr).1 =
      (Except.error Err.unknownHandle, (runCollect initState tr).1) ∧
    finalize h (runCollect initState tr).1 =
      (Except.error Err.unknownHandle, (runCollect initState tr).1) := by
  have habs : lookupStore (runCollect initState tr).1.objectStore h = none := by
    rcases hx : lookupStore (runCollect initState tr).1.objectStore h with _ | v
    · rfl
    · exfalso
      have hs : (lookupStore (runCollect initState tr).1.objectStore h).isSome = true := by
        rw [hx]; rfl
      rcases runCollect_keys tr initState h hs with h1 | h2
      · simp [initState, lookupStore] at h1
      · exact hnp h2
  exact ⟨binding_of_absent h b _ c hdb habs, stepReset_of_absent h _ c hdb habs,
         stepFinalize_of_absent h _ c hdb habs, finalize_of_absent h _ c hdb habs⟩

/-- Claim C2 witness: after a connect followed by one prepare (which
returned handle 0), the never-returned handle 5 makes binding fail with
UnknownHandleError. -/
theorem C2_witness :
    (runCollect initState [Op.connectOp (InitResult.success true),
        Op.prepareOp "insert into users values(?, ?)"]).1.db = some conn0 ∧
    (5 : Nat) ∉ (runCollect initState [Op.connectOp (InitResult.success true),
        Op.prepareOp "insert into users values(?, ?)"]).2 ∧
    binding 5 [] (runCollect initState [Op.connectOp (InitResult.success true),
        Op.prepareOp "insert into users values(?, ?)"]).1 =
      (Except.error Err.unknownHandle,
       (runCollect initState [Op.connectOp (InitResult.success true),
        Op.prepareOp "insert into users values(?, ?)"]).1) :=
  ⟨rfl, by decide,
   (C2_never_prepared_handle_ops_fail
      [Op.connectOp (InitResult.success true),
       Op.prepareOp "insert into users values(?, ?)"] 5 [] conn0 rfl (by decide)).1⟩

/-- Claim C3: in a state with no connection (before connect succeeds, or
after close), every operation other than connect and close — exec,
selectValue, prepare, binding, stepReset, stepFinalize, finalize —
fails with NotConnectedError and leaves the state unchanged. -/
theorem C3_not_connected_ops_fail (s : WorkerState) (hdb : s.db = none) :
    (∀ q o, exec q o s = (Except.error Err.notConnected, s)) ∧
    (∀ q b t, selectValue q b t s = (Except.error Err.notConnected, s)) ∧
    (∀ q, prepare q s = (Except.error Err.notConnected, s)) ∧
    (∀ h b, binding h b s = (Except.error Err.notConnected, s)) ∧
    (∀ h, stepReset h s = (Except.error Err.notConnected, s)) ∧
    (∀ h, stepFinalize h s = (Except.error Err.notConnected, s)) ∧
    (∀ h, finalize h s = (Except.error Err.notConnected, s)) :=
  ⟨fun q o => by unfold exec; rw [hdb],
   fun q b t => by unfold selectValue; rw [hdb],
   fun q => prepare_of_not_connected q s hdb,
   fun h b => by unfold binding; rw [hdb],
   fun h => by unfold stepReset; rw [hdb],
   fun h => by unfold stepFinalize; rw [hdb],
   fun h => by unfold finalize; rw [hdb]⟩

/-- Claim C3 witness: at the initial state (no connection yet), exec,
prepare and finalize each fail with NotConnectedError; the same state
results from closing a freshly connected worker. -/
theorem C3_witness :
    exec (SqlArg.str "SELECT 1") [] initState =
      (Except.error Err.notConnected, initState) ∧
    prepare "SELECT 1" initState = (Except.error Err.notConnected, initState) ∧
    finalize 0 initState = (Except.error Err.notConnected, initState) :=
  ⟨(C3_not_connected_ops_fail initState rfl).1 _ _,
   (C3_not_connected_ops_fail initState rfl).2.2.1 _,
   (C3_not_connected_ops_fail initState rfl).2.2.2.2.2.2 _⟩

/-- Claim C7: exec dispatches on the shape of its first argument: in a
connected state a bare statement string goes to the two-argument
underlying call (statement plus options) and a structured request object
goes to the one-argument call; the two dispatch targets are distinct. -/
theorem C7_exec_dispatch (s : WorkerState) (c : Conn) (q : String) (o : ExecOpts)
    (r : ExecRequest) (hdb : s.db = some c) :
    exec (SqlArg.str q) o s = (Except.ok (DbExecCall.twoArg q o), s) ∧
    exec (SqlArg.obj r) o s = (Except.ok (DbExecCall.oneArg r), s) ∧
    DbExecCall.twoArg q o ≠ DbExecCall.oneArg r :=
  ⟨by unfold exec; rw [hdb],
   by unfold exec; rw [hdb],
   fun hcon => DbExecCall.noConfusion hcon⟩

/-- Claim C7 witness: in a concrete connected state, a bare string is
dispatched to the two-argument call and a request object to the
one-argument call. -/
theorem C7_witness :
    exec (SqlArg.str "SELECT 1") [] state1 =
      (Except.ok (DbExecCall.twoArg "SELECT 1" []), state1) ∧
    exec (SqlArg.obj { sql := "SELECT 1" }) [] state1 =
      (Except.ok (DbExecCall.oneArg { sql := "SELECT 1" }), state1) :=
  ⟨(C7_exec_dispatch state1 conn0 "SELECT 1" [] { sql := "SELECT 1" } rfl).1,
   (C7_exec_dispatch state1 conn0 "SELECT 1" [] { sql := "SELECT 1" } rfl).2.1⟩

/-- Claim C9: prepare is the only operation that modifies the Resource
Registry: binding, stepReset, stepFinalize, finalize, exec, selectValue,
connectDatabase and closeDB leave every registry entry in place; after
prepare the old registry is a suffix of the new one (monotone growth);
and closeDB also leaves the statement heap intact, so existing handles
still dereference to their resource objects after the connection is torn
down. -/
theorem C9_registry_frame :
    (∀ h b s, (binding h b s).2.objectStore = s.objectStore) ∧
    (∀ h s, (stepReset h s).2.objectStore = s.objectStore) ∧
    (∀ h s, (stepFinalize h s).2.objectStore = s.objectStore) ∧
    (∀ h s, (finalize h s).2.objectStore = s.objectStore) ∧
    (∀ q o s, (exec q o s).2.objectStore = s.objectStore) ∧
    (∀ q b t s, (selectValue q b t s).2.objectStore = s.objectStore) ∧
    (∀ env s, (connectDatabase env s).2.objectStore = s.objectStore) ∧
    (∀ s, (closeDB s).objectStore = s.objectStore) ∧
    (∀ s, (closeDB s).heap = s.heap) ∧
    (∀ s h, getStmt (closeDB s) h = getStmt s h) ∧
    (∀ q s, s.objectStore <:+ (prepare q s).2.objectStore) :=
  ⟨binding_objectStore, stepReset_objectStore, stepFinalize_objectStore,
   finalize_objectStore, exec_objectStore, selectValue_objectStore,
   connectDatabase_objectStore, closeDB_objectStore, closeDB_heap,
   fun s h => by unfold getStmt; rw [closeDB_objectStore, closeDB_heap],
   fun q s => by
     rcases hdb : s.db with _ | c
     · rw [prepare_of_not_connected q s hdb]
     · rw [prepare_of_connected q s c hdb]
       exact List.suffix_cons _ _⟩

/-- Claim C10: when exec is called with a structured request object as
its first argument, the options argument is silently discarded: the
outcome (underlying call and successor state) is identical for any two
options values. -/
theorem C10_exec_obj_ignores_opts (r : ExecRequest) (o1 o2 : ExecOpts)
    (s : WorkerState) :
    exec (SqlArg.obj r) o1 s = exec (SqlArg.obj r) o2 s := by
  unfold exec
  rcases s.db with _ | c <;> rfl

theorem connectDatabase_success_db (env : InitResult) (s s1 : WorkerState) (c : Conn)
    (h1 : connectDatabase env s = (Except.ok c, s1)) : s1.db = some c := by
  unfold connectDatabase at h1
  rcases hd : s.db with _ | c0
  · rw [hd] at h1
    rcases env with b | ⟨n, m⟩ | _
    · simp only [connectDB] at h1
      injection h1 with ha hb
      injection ha with hc
      rw [← hb, ← hc]
    · exact Except.noConfusion (congrArg Prod.fst h1)
    · exact Except.noConfusion (congrArg Prod.fst h1)
  · rw [hd] at h1
    injection h1 with ha hb
    injection ha with hc
    rw [← hb, hd, hc]

/-- Claim C4: connect is idempotent: once a connectDatabase call has
succeeded with some connection, any subsequent connectDatabase call
(whatever the initialization environment would do) returns the very same
connection object and leaves the state untouched, so no
re-initialization of the engine occurs. -/
theorem C4_connect_idempotent (env1 env2 : InitResult) (s s1 : WorkerState) (c : Conn)
    (h1 : connectDatabase env1 s = (Except.ok c, s1)) :
    connectDatabase env2 s1 = (Except.ok c, s1) := by
  have hdb : s1.db = some c := connectDatabase_success_db env1 s s1 c h1
  unfold connectDatabase
  rw [hdb]

/-- Claim C4 witness: after the first successful connect from the
initial state, a second connect returns the same connection and the same
state. -/
theorem C4_witness :
    connectDatabase (InitResult.success false) state1 = (Except.ok conn0, state1) :=
  C4_connect_idempotent (InitResult.success true) (InitResult.success false)
    initState state1 conn0 rfl

/-- Claim C5: closeDB releases the open connection (its close method is
called) and resets the process-wide reference to empty; it is a no-op
when no connection exists; and a connect issued after close
re-initializes a fresh connection distinct from the prior one. -/
theorem C5_close_spec (env1 env2 : InitResult) (s s1 s2 : WorkerState) (c1 c2 : Conn)
    (hdb : s.db = none)
    (h1 : connectDatabase env1 s = (Except.ok c1, s1))
    (h2 : connectDatabase env2 (closeDB s1) = (Except.ok c2, s2)) :
    (closeDB s1).db = none ∧ closeDB s = s ∧ c1.id ∈ (closeDB s1).released ∧ c2 ≠ c1 := by
  unfold connectDatabase at h1
  rw [hdb] at h1
  rcases env1 with b | ⟨n, m⟩ | _
  · simp only [connectDB] at h1
    injection h1 with ha hb
    injection ha with hc
    rw [← hb, ← hc]
    have hclose :
        closeDB { s with db := some (⟨s.nextConnId, b, "/mydb.sqlite3"⟩ : Conn),
                         nextConnId := s.nextConnId + 1 } =
        { s with db := none, nextConnId := s.nextConnId + 1,
                 released := s.nextConnId :: s.released } := by
      unfold closeDB; rfl
    refine ⟨by rw [hclose], by unfold closeDB; rw [hdb], by rw [hclose]; exact List.mem_cons_self _ _, ?_⟩
    rw [← hb] at h2
    rw [hclose] at h2
    unfold connectDatabase at h2
    simp only [] at h2
    rcases env2 with b2 | ⟨n2, m2⟩ | _
    · simp only [connectDB] at h2
      injection h2 with ha2 hb2
      injection ha2 with hc2
      rw [← hc2]
      intro he
      have hid := congrArg Conn.id he
      simp only [] at hid
      omega
    · exact Except.noConfusion (congrArg Prod.fst h2)
    · exact Except.noConfusion (congrArg Prod.fst h2)
  · exact Except.noConfusion (congrArg Prod.fst h1)
  · exact Except.noConfusion (congrArg Prod.fst h1)

/-- Claim C5 witness: connect from the initial state, close, connect
again: the reference is reset, closing the empty state is a no-op, the
first connection is recorded as released, and the second connection is
distinct from the first. -/
theorem C5_witness :
    (closeDB state1).db = none ∧ closeDB initState = initState ∧
    (0 : Nat) ∈ (closeDB state1).released ∧
    ({ id := 1, persistent := true, filename := "/mydb.sqlite3" } : Conn) ≠ conn0 :=
  C5_close_spec (InitResult.success true) (InitResult.success true) initState state1
    { db := some { id := 1, persistent := true, filename := "/mydb.sqlite3" },
      nextConnId := 2, released := [0] }
    conn0 { id := 1, persistent := true, filename := "/mydb.sqlite3" }
    rfl rfl rfl

/-- Claim C8: if connect fails during engine initialization, the
process-wide reference is left empty and the state unchanged; a thrown
value that is not an Error instance is surfaced as a generic unknown
error; and a later connect with a succeeding initialization creates a
connection from scratch. -/
theorem C8_connect_failure (s : WorkerState) (n m : String) (b : Bool)
    (hdb : s.db = none) :
    connectDatabase (InitResult.thrownError n m) s =
      (Except.error (Err.jsError n m), s) ∧
    connectDatabase InitResult.thrownOther s =
      (Except.error (Err.jsError "Error" "unknown error"), s) ∧
    connectDatabase (InitResult.success b) s =
      (Except.ok { id := s.nextConnId, persistent := b, filename := "/mydb.sqlite3" },
       { s with db := some { id := s.nextConnId, persistent := b,
                             filename := "/mydb.sqlite3" },
                nextConnId := s.nextConnId + 1 }) :=
  ⟨by unfold connectDatabase; rw [hdb],
   by unfold connectDatabase; rw [hdb],
   by unfold connectDatabase connectDB; rw [hdb]⟩

/-- Claim C8 witness: a thrown Error is rethrown unchanged, a non-Error
thrown value becomes the generic unknown error, both leave the initial
state intact, and a retry succeeds from scratch. -/
theorem C8_witness :
    connectDatabase (InitResult.thrownError "Error" "boom") initState =
      (Except.error (Err.jsError "Error" "boom"), initState) ∧
    connectDatabase InitResult.thrownOther initState =
      (Except.error (Err.jsError "Error" "unknown error"), initState) ∧
    connectDatabase (InitResult.success true) initState =
      (Except.ok { id := 0, persistent := true, filename := "/mydb.sqlite3" },
       { initState with db := some { id := 0, persistent := true,
                                     filename := "/mydb.sqlite3" },
                        nextConnId := 1 }) :=
  C8_connect_failure initState "Error" "boom" true rfl

/-- Claim C1 counterexample: connect, prepare a statement (handle 0) and
finalize it successfully; the subsequent binding call with the finalized
handle does NOT fail with UnknownHandleError — it succeeds, because the
registry lookup silently finds the stale, already-finalized statement
object (finalize never removes the entry). -/
theorem C1_counterexample :
    (finalize 0 (prepare "insert into users values(?, ?)" state1).2).1 =
      Except.ok 0 ∧
    getStmt (finalize 0 (prepare "insert into users values(?, ?)" state1).2).2 0 =
      some { sql := "insert into users values(?, ?)", bound := none, steps := 0,
             finalized := true } ∧
    (binding 0 [SqlValue.int 1]
        (finalize 0 (prepare "insert into users values(?, ?)" state1).2).2).1 =
      Except.ok 0 ∧
    (binding 0 [SqlValue.int 1]
        (finalize 0 (prepare "insert into users values(?, ?)" state1).2).2).1 ≠
      Except.error Err.unknownHandle :=
  ⟨rfl, rfl, rfl, fun hcon => Except.noConfusion hcon⟩

/-- Claim C1 amended: after finalize (or stepFinalize) completes on a
handle, the registry entry is not removed: the identifier still resolves
to the stale statement object (now marked finalized), and every
subsequent handle-based operation with that identifier succeeds against
the stale object instead of failing with UnknownHandleError. -/
theorem C1_amended_finalize_leaves_entry (s : WorkerState) (c : Conn) (h ref : Nat)
    (st : Stmt) (b : BindingSpec)
    (hdb : s.db = some c) (hl : lookupStore s.objectStore h = some ref)
    (hst : s.heap[ref]? = some st) :
    (finalize h s).1 = Except.ok 0 ∧
    (finalize h s).2.objectStore = s.objectStore ∧
    (stepFinalize h s).2.objectStore = s.objectStore ∧
    getStmt (finalize h s).2 h = some { st with finalized := true } ∧
    (binding h b (finalize h s).2).1 = Except.ok h ∧
    (stepReset h (finalize h s).2).1 = Except.ok h ∧
    (stepFinalize h (finalize h s).2).1 = Except.ok false ∧
    (finalize h (finalize h s).2).1 = Except.ok 0 := by
  have e1 := finalize_of_found h s c ref hdb hl
  have hdb2 : (finalize h s).2.db = some c := by rw [e1]; exact hdb
  have hl2 : lookupStore (finalize h s).2.objectStore h = some ref := by
    rw [finalize_objectStore]; exact hl
  have hheap2 : (finalize h s).2.heap[ref]? = some { st with finalized := true } := by
    rw [e1]
    show (modifyNth (fun st => { st with finalized := true }) ref s.heap)[ref]? = _
    rw [modifyNth_getElem_self, hst]
    rfl
  refine ⟨by rw [e1], by rw [e1], stepFinalize_objectStore h s, ?_, ?_, ?_, ?_, ?_⟩
  · unfold getStmt
    rw [hl2]
    simpa using hheap2
  · rw [binding_of_found h b (finalize h s).2 c ref hdb2 hl2]
  · rw [stepReset_of_found h (finalize h s).2 c ref hdb2 hl2]
  · rw [stepFinalize_of_found h (finalize h s).2 c ref hdb2 hl2]
  · rw [finalize_of_found h (finalize h s).2 c ref hdb2 hl2]

/-- Claim C1 amended witness: after preparing handle 0 in a connected
state and finalizing it, the registry entry remains, handle 0 still
resolves to the stale finalized statement, and every handle-based
operation on it succeeds instead of failing with UnknownHandleError. -/
theorem C1_amended_witness :
    (finalize 0 (prepare "SELECT 1" state1).2).1 = Except.ok 0 ∧
    (finalize 0 (prepare "SELECT 1" state1).2).2.objectStore =
      (prepare "SELECT 1" state1).2.objectStore ∧
    (stepFinalize 0 (prepare "SELECT 1" state1).2).2.objectStore =
      (prepare "SELECT 1" state1).2.objectStore ∧
    getStmt (finalize 0 (prepare "SELECT 1" state1).2).2 0 =
      some { sql := "SELECT 1", bound := none, steps := 0, finalized := true } ∧
    (binding 0 [] (finalize 0 (prepare "SELECT 1" state1).2).2).1 = Except.ok 0 ∧
    (stepReset 0 (finalize 0 (prepare "SELECT 1" state1).2).2).1 = Except.ok 0 ∧
    (stepFinalize 0 (finalize 0 (prepare "SELECT 1" state1).2).2).1 = Except.ok false ∧
    (finalize 0 (finalize 0 (prepare "SELECT 1" state1).2).2).1 = Except.ok 0 :=
  C1_amended_finalize_leaves_entry (prepare "SELECT 1" state1).2 conn0 0 0
    { sql := "SELECT 1" } [] rfl rfl rfl

theorem prepare_db (q : String) (s : WorkerState) : (prepare q s).2.db = s.db := by
  unfold prepare
  rcases hdb : s.db with _ | c
  · exact hdb
  · rfl

theorem binding_db (h : Nat) (b : BindingSpec) (s : WorkerState) :
    (binding h b s).2.db = s.db := by
  unfold binding
  rcases hdb : s.db with _ | c
  · exact hdb
  · rcases hl : lookupStore s.objectStore h with _ | ref
    · exact hdb
    · rfl

/-- Claim C6: in a connected state, two sequential prepare calls with
the same statement text return two distinct handles, each mapped to its
own resource in the registry (distinct heap references), and binding
each handle to its own values then finalizing the first leaves the
second statement with its own bound values, unfinalized: the handles do
not interfere. -/
theorem C6_prepare_distinct (s : WorkerState) (c : Conn) (sql : String)
    (b1 b2 : BindingSpec) (hdb : s.db = some c) :
    (prepare sql s).1 = Except.ok s.nextPtr ∧
    (prepare sql (prepare sql s).2).1 = Except.ok (s.nextPtr + 1) ∧
    s.nextPtr + 1 ≠ s.nextPtr ∧
    lookupStore (prepare sql (prepare sql s).2).2.objectStore s.nextPtr =
      some s.heap.length ∧
    lookupStore (prepare sql (prepare sql s).2).2.objectStore (s.nextPtr + 1) =
      some (s.heap.length + 1) ∧
    getStmt
      (finalize s.nextPtr
        (binding (s.nextPtr + 1) b2
          (binding s.nextPtr b1 (prepare sql (prepare sql s).2).2).2).2).2
      s.nextPtr =
      some { sql := sql, bound := some b1, steps := 0, finalized := true } ∧
    getStmt
      (finalize s.nextPtr
        (binding (s.nextPtr + 1) b2
          (binding s.nextPtr b1 (prepare sql (prepare sql s).2).2).2).2).2
      (s.nextPtr + 1) =
      some { sql := sql, bound := some b2, steps := 0, finalized := false } := by
  have e1 := prepare_of_connected sql s c hdb
  have hdb1 : (prepare sql s).2.db = some c := by rw [prepare_db]; exact hdb
  have hnp1 : (prepare sql s).2.nextPtr = s.nextPtr + 1 := by rw [e1]
  have hhl1 : (prepare sql s).2.heap.length = s.heap.length + 1 := by rw [e1]; simp
  have hos1 : (prepare sql s).2.objectStore =
      (s.nextPtr, s.heap.length) :: s.objectStore := by rw [e1]
  have hheap1 : (prepare sql s).2.heap = s.heap ++ [{ sql := sql }] := by rw [e1]
  have e2 := prepare_of_connected sql (prepare sql s).2 c hdb1
  have hdb2 : (prepare sql (prepare sql s).2).2.db = some c := by
    rw [prepare_db]; exact hdb1
  have hos2 : (prepare sql (prepare sql s).2).2.objectStore =
      (s.nextPtr + 1, s.heap.length + 1) :: (s.nextPtr, s.heap.length) ::
        s.objectStore := by
    rw [e2]
    show ((prepare sql s).2.nextPtr, (prepare sql s).2.heap.length) ::
        (prepare sql s).2.objectStore = _
    rw [hnp1, hhl1, hos1]
  have hheap2 : (prepare sql (prepare sql s).2).2.heap =
      (s.heap ++ [{ sql := sql }]) ++ [{ sql := sql }] := by
    rw [e2]
    show (prepare sql s).2.heap ++ [{ sql := sql }] = _
    rw [hheap1]
  have hne : ¬ (s.nextPtr + 1 = s.nextPtr) := by omega
  have hl2a : lookupStore (prepare sql (prepare sql s).2).2.objectStore s.nextPtr =
      some s.heap.length := by
    rw [hos2, lookupStore_cons, if_neg hne, lookupStore_cons, if_pos rfl]
  have hl2b : lookupStore (prepare sql (prepare sql s).2).2.objectStore
      (s.nextPtr + 1) = some (s.heap.length + 1) := by
    rw [hos2, lookupStore_cons, if_pos rfl]
  have hS2a : (prepare sql (prepare sql s).2).2.heap[s.heap.length]? =
      some { sql := sql } := by
    rw [hheap2, List.getElem?_append_left (by simp)]
    exact List.getElem?_concat_length s.heap { sql := sql }
  have hS2b : (prepare sql (prepare sql s).2).2.heap[s.heap.length + 1]? =
      some { sql := sql } := by
    rw [hheap2]
    have hlen : (s.heap ++ [({ sql := sql } : Stmt)]).length = s.heap.length + 1 := by
      simp
    rw [← hlen]
    exact List.getElem?_concat_length _ _
  have e3 := binding_of_found s.nextPtr b1 (prepare sql (prepare sql s).2).2 c
    s.heap.length hdb2 hl2a
  have hdb3 : (binding s.nextPtr b1 (prepare sql (prepare sql s).2).2).2.db =
      some c := by rw [binding_db]; exact hdb2
  have hheap3 : (binding s.nextPtr b1 (prepare sql (prepare sql s).2).2).2.heap =
      modifyNth (fun st => { st with bound := some b1 }) s.heap.length
        (prepare sql (prepare sql s).2).2.heap := by rw [e3]
  have hl3 : lookupStore
      (binding s.nextPtr b1 (prepare sql (prepare sql s).2).2).2.objectStore
      (s.nextPtr + 1) = some (s.heap.length + 1) := by
    rw [binding_objectStore]; exact hl2b
  have e4 := binding_of_found (s.nextPtr + 1) b2
    (binding s.nextPtr b1 (prepare sql (prepare sql s).2).2).2 c
    (s.heap.length + 1) hdb3 hl3
  have hdb4 : (binding (s.nextPtr + 1) b2
      (binding s.nextPtr b1 (prepare sql (prepare sql s).2).2).2).2.db = some c := by
    rw [binding_db]; exact hdb3
  have hheap4 : (binding (s.nextPtr + 1) b2
      (binding s.nextPtr b1 (prepare sql (prepare sql s).2).2).2).2.heap =
      modifyNth (fun st => { st with bound := some b2 }) (s.heap.length + 1)
        (binding s.nextPtr b1 (prepare sql (prepare sql s).2).2).2.heap := by rw [e4]
  have hl4 : lookupStore (binding (s.nextPtr + 1) b2
      (binding s.nextPtr b1 (prepare sql (prepare sql s).2).2).2).2.objectStore
      s.nextPtr = some s.heap.length := by
    rw [binding_objectStore, binding_objectStore]; exact hl2a
  have e5 := finalize_of_found s.nextPtr (binding (s.nextPtr + 1) b2
    (binding s.nextPtr b1 (prepare sql (prepare sql s).2).2).2).2 c
    s.heap.length hdb4 hl4
  have hheap5 : (finalize s.nextPtr (binding (s.nextPtr + 1) b2
      (binding s.nextPtr b1 (prepare sql (prepare sql s).2).2).2).2).2.heap =
      modifyNth (fun st => { st with finalized := true }) s.heap.length
        (binding (s.nextPtr + 1) b2
          (binding s.nextPtr b1 (prepare sql (prepare sql s).2).2).2).2.heap := by
    rw [e5]
  have hl5a : lookupStore (finalize s.nextPtr (binding (s.nextPtr + 1) b2
      (binding s.nextPtr b1 (prepare sql (prepare sql s).2).2).2).2).2.objectStore
      s.nextPtr = some s.heap.length := by
    rw [finalize_objectStore]; exact hl4
  have hl5b : lookupStore (finalize s.nextPtr (binding (s.nextPtr + 1) b2
      (binding s.nextPtr b1 (prepare sql (prepare sql s).2).2).2).2).2.objectStore
      (s.nextPtr + 1) = some (s.heap.length + 1) := by
    rw [finalize_objectStore, binding_objectStore]; exact hl3
  have hfin5a : (finalize s.nextPtr (binding (s.nextPtr + 1) b2
      (binding s.nextPtr b1 (prepare sql (prepare sql s).2).2).2).2).2.heap[s.heap.length]? =
      some { sql := sql, bound := some b1, steps := 0, finalized := true } := by
    rw [hheap5, modifyNth_getElem_self, hheap4,
        modifyNth_getElem_ne _ _ _ _ (by omega), hheap3, modifyNth_getElem_self, hS2a]
    rfl
  have hfin5b : (finalize s.nextPtr (binding (s.nextPtr + 1) b2
      (binding s.nextPtr b1 (prepare sql (prepare sql s).2).2).2).2).2.heap[s.heap.length + 1]? =
      some { sql := sql, bound := some b2, steps := 0, finalized := false } := by
    rw [hheap5, modifyNth_getElem_ne _ _ _ _ (by omega), hheap4,
        modifyNth_getElem_self, hheap3, modifyNth_getElem_ne _ _ _ _ (by omega), hS2b]
    rfl
  refine ⟨by rw [e1], ?_, by omega, hl2a, hl2b, ?_, ?_⟩
  · rw [e2]
    show Except.ok (prepare sql s).2.nextPtr = _
    rw [hnp1]
  · unfold getStmt
    rw [hl5a]
    simpa using hfin5a
  · unfold getStmt
    rw [hl5b]
    simpa using hfin5b

/-- Claim C6 witness: from a freshly connected state, two prepares of
the same text return handles 0 and 1, mapped to heap references 0 and 1;
after binding each and finalizing the first, the first statement holds
its own values and is finalized while the second keeps its values
unfinalized. -/
theorem C6_witness :
    (prepare "insert into users values(?, ?)" state1).1 = Except.ok 0 ∧
    (prepare "insert into users values(?, ?)"
      (prepare "insert into users values(?, ?)" state1).2).1 = Except.ok 1 ∧
    (0 : Nat) + 1 ≠ 0 ∧
    lookupStore (prepare "insert into users values(?, ?)"
      (prepare "insert into users values(?, ?)" state1).2).2.objectStore 0 = some 0 ∧
    lookupStore (prepare "insert into users values(?, ?)"
      (prepare "insert into users values(?, ?)" state1).2).2.objectStore 1 = some 1 ∧
    getStmt
      (finalize 0 (binding 1 [SqlValue.int 3, SqlValue.text "Carol3"]
        (binding 0 [SqlValue.int 2, SqlValue.text "Bob2"]
          (prepare "insert into users values(?, ?)"
            (prepare "insert into users values(?, ?)" state1).2).2).2).2).2 0 =
      some { sql := "insert into users values(?, ?)",
             bound := some [SqlValue.int 2, SqlValue.text "Bob2"], steps := 0,
             finalized := true } ∧
    getStmt
      (finalize 0 (binding 1 [SqlValue.int 3, SqlValue.text "Carol3"]
        (binding 0 [SqlValue.int 2, SqlValue.text "Bob2"]
          (prepare "insert into users values(?, ?)"
            (prepare "insert into users values(?, ?)" state1).2).2).2).2).2 1 =
      some { sql := "insert into users values(?, ?)",
             bound := some [SqlValue.int 3, SqlValue.text "Carol3"], steps := 0,
             finalized := false } :=
  C6_prepare_distinct state1 conn0 "insert into users values(?, ?)"
    [SqlValue.int 2, SqlValue.text "Bob2"] [SqlValue.int 3, SqlValue.text "Carol3"] rfl

end DatabaseTs
